import Mathlib

/-!
Verification development for the carelink clinician dashboard core:
the blood-pressure reading classifier, the reading ingestion pipeline
with its conditional alert creation, and the alert update handler.

The TypeScript route handlers are embedded shallowly: numbers become Int,
optional request fields become Option, JavaScript truthiness on strings
and numbers is made explicit, and the document-store side effects become
explicit state passing over lists of records together with a record of
which external operations succeed.
-/

/-- Severity tier of a blood-pressure reading, the ReadingStatus union type
from the shared types module. -/
inductive ReadingStatus where
  | normal
  | elevated
  | high
  | critical
deriving DecidableEq

/-- JavaScript truthiness of an optional string: undefined and the empty
string are falsy. -/
def truthyStr : Option String → Bool
  | none => false
  | some s => !(s == "")

/-- JavaScript truthiness of an optional integer: undefined and 0 are falsy. -/
def truthyInt : Option Int → Bool
  | none => false
  | some n => !(n == 0)

namespace Readings

/-- Classifier getReadingStatus from the readings route
(src/src/app/api/readings/route.ts): map systolic and diastolic to a tier,
bands checked top-down. -/
def getReadingStatus (systolic diastolic : Int) : ReadingStatus :=
  if systolic ≥ 180 ∨ diastolic ≥ 120 then .critical
  else if systolic ≥ 140 ∨ diastolic ≥ 90 then .high
  else if systolic ≥ 130 ∨ diastolic ≥ 80 then .elevated
  else .normal

end Readings

namespace BloodPressure

/-- Classifier getReadingStatus from the blood-pressure alias route
(src/unnamed/part_000), textually identical to the readings-route copy. -/
def getReadingStatus (systolic diastolic : Int) : ReadingStatus :=
  if systolic ≥ 180 ∨ diastolic ≥ 120 then .critical
  else if systolic ≥ 140 ∨ diastolic ≥ 90 then .high
  else if systolic ≥ 130 ∨ diastolic ≥ 80 then .elevated
  else .normal

end BloodPressure

namespace ApiTypes

/-- Classifier calculateReadingStatus exported from the shared types module
(src/unnamed/part_004). -/
def calculateReadingStatus (systolic diastolic : Int) : ReadingStatus :=
  if systolic ≥ 180 ∨ diastolic ≥ 120 then .critical
  else if systolic ≥ 140 ∨ diastolic ≥ 90 then .high
  else if systolic ≥ 130 ∨ diastolic ≥ 80 then .elevated
  else .normal

end ApiTypes

namespace Readings

/-- Persisted blood-pressure reading record (interface BPReading in the shared
types module), with the generated document id. -/
structure BPReading where
  id : String
  patientId : String
  systolic : Int
  diastolic : Int
  pulse : Option Int
  timestamp : String
  source : String
  deviceId : Option String
  status : ReadingStatus
  patientNote : Option String
deriving DecidableEq

/-- Request body of POST /api/readings (interface CreateReadingRequest).
Fields a JSON body may omit are Option. -/
structure CreateReadingRequest where
  patientId : Option String
  systolic : Option Int
  diastolic : Option Int
  pulse : Option Int
  source : Option String
  deviceId : Option String
  patientNote : Option String
deriving DecidableEq

/-- Patient document as read by the alert pipeline: only the name fields are
consulted. -/
structure PatientRec where
  id : String
  firstName : String
  lastName : String
deriving DecidableEq

/-- Alert document as written by createAlertForReading (the alertData object);
the store assigns the id on add, so none is carried here. -/
structure AlertData where
  patientId : String
  patientName : String
  type : String
  severity : String
  status : String
  title : String
  description : String
  relatedReadingId : String
  triggerValue : String
  createdAt : String
deriving DecidableEq

/-- State of the document store as seen by the readings route: the patients,
readings and alerts collections. -/
structure Db where
  patients : List PatientRec
  readings : List BPReading
  alerts : List AlertData
deriving DecidableEq

/-- Outcome of each external store operation the POST handler awaits; false
means the awaited promise rejects (the operation throws). -/
structure Effects where
  readingAddOk : Bool
  patientGetOk : Bool
  alertAddOk : Bool
deriving DecidableEq

/-- Result of POST /api/readings: 201 with the saved reading, 400 with a
validation message, or 500 when a store operation of the main flow throws. -/
inductive PostResult where
  | created (reading : BPReading)
  | badRequest (msg : String)
  | serverError
deriving DecidableEq

/-- Demo patient-name fallback map hard-coded in createAlertForReading. -/
def demoPatientMap : String → Option String
  | "P-2025-001" => some "Maria Rodriguez"
  | "P-2025-002" => some "Robert Thompson"
  | "P-2025-003" => some "James Wilson"
  | "P-2025-004" => some "Linda Martinez"
  | "P-2025-005" => some "David Kim"
  | "P-2025-006" => some "Sarah Johnson"
  | "P-2025-007" => some "William Brown"
  | "P-2025-008" => some "Michael Chen"
  | "P-2025-009" => some "Emily Davis"
  | "P-2025-010" => some "Thomas Anderson"
  | "P-2025-011" => some "Patricia Lee"
  | _ => none

/-- Patient display-name resolution inside createAlertForReading: the patients
collection first, then the demo map, then the literal Unknown Patient. -/
def resolvePatientName (patients : List PatientRec) (pid : String) : String :=
  match patients.find? (fun p => p.id == pid) with
  | some p => p.firstName ++ " " ++ p.lastName
  | none =>
    match demoPatientMap pid with
    | some n => n
    | none => "Unknown Patient"

/-- Alert document built by createAlertForReading for a qualifying reading,
stamped with the current time. -/
def mkAlertData (patients : List PatientRec) (reading : BPReading) (now : String) :
    AlertData where
  patientId := reading.patientId
  patientName := resolvePatientName patients reading.patientId
  type := if reading.status = .critical then "critical-bp" else "high-bp"
  severity := if reading.status = .critical then "critical" else "warning"
  status := "new"
  title := if reading.status = .critical
    then "Critical Blood Pressure Alert"
    else "High Blood Pressure Alert"
  description := "Blood pressure reading of " ++ toString reading.systolic ++ "/"
    ++ toString reading.diastolic ++ " mmHg requires attention."
  relatedReadingId := reading.id
  triggerValue := toString reading.systolic ++ "/" ++ toString reading.diastolic
  createdAt := now

/-- Embedding of async createAlertForReading: its internal try/catch swallows a
throwing patient lookup or alert add, so on failure the store is unchanged and
nothing propagates; on success exactly one alert document is appended. -/
def createAlertForReading (db : Db) (reading : BPReading) (eff : Effects)
    (now : String) : Db :=
  if eff.patientGetOk = false then db
  else if eff.alertAddOk = false then db
  else { db with alerts := db.alerts ++ [mkAlertData db.patients reading now] }

/-- Reading document the POST handler persists once validation passed: the
readingData object plus the id newId the store assigns on add; the status field
holds the classifier output and the source falls back to patient-submitted when
the supplied tag is falsy. -/
def mkReading (body : CreateReadingRequest) (now newId : String) : BPReading where
  id := newId
  patientId := body.patientId.getD ""
  systolic := body.systolic.getD 0
  diastolic := body.diastolic.getD 0
  pulse := body.pulse
  timestamp := now
  source := if truthyStr body.source then body.source.getD "" else "patient-app"
  deviceId := body.deviceId
  status := getReadingStatus (body.systolic.getD 0) (body.diastolic.getD 0)
  patientNote := body.patientNote

/-- Embedding of POST /api/readings in configured mode: JavaScript-falsy checks
on the required fields, range validation, classification, reading persistence,
then the conditional best-effort alert. newId is the id the store assigns to
the reading and now the current time. A throwing reading add is caught by the
outer try/catch and surfaces as a 500 with no state change. -/
def POST (db : Db) (body : CreateReadingRequest) (eff : Effects)
    (now newId : String) : PostResult × Db :=
  if truthyStr body.patientId = false ∨ truthyInt body.systolic = false
      ∨ truthyInt body.diastolic = false then
    (.badRequest "patientId, systolic, and diastolic are required", db)
  else if body.systolic.getD 0 < 60 ∨ body.systolic.getD 0 > 300 then
    (.badRequest "Invalid systolic value", db)
  else if body.diastolic.getD 0 < 40 ∨ body.diastolic.getD 0 > 200 then
    (.badRequest "Invalid diastolic value", db)
  else
    let reading := mkReading body now newId
    if eff.readingAddOk = false then (.serverError, db)
    else
      let db1 : Db := { db with readings := db.readings ++ [reading] }
      if reading.status = .critical ∨ reading.status = .high then
        (.created reading, createAlertForReading db1 reading eff now)
      else
        (.created reading, db1)

/-- Request body passing the validation of POST /api/readings: the three
required fields are present and truthy and both vitals are in range. -/
def validBody (body : CreateReadingRequest) : Bool :=
  truthyStr body.patientId && truthyInt body.systolic && truthyInt body.diastolic
    && decide (60 ≤ body.systolic.getD 0) && decide (body.systolic.getD 0 ≤ 300)
    && decide (40 ≤ body.diastolic.getD 0) && decide (body.diastolic.getD 0 ≤ 200)

lemma createAlert_readings (db : Db) (r : BPReading) (eff : Effects) (now : String) :
    (createAlertForReading db r eff now).readings = db.readings := by
  unfold createAlertForReading
  split_ifs <;> rfl

lemma createAlert_alerts_cases (db : Db) (r : BPReading) (eff : Effects) (now : String) :
    (createAlertForReading db r eff now).alerts = db.alerts ∨
    (createAlertForReading db r eff now).alerts
      = db.alerts ++ [mkAlertData db.patients r now] := by
  unfold createAlertForReading
  split_ifs <;> simp

lemma createAlert_alerts_ok (db : Db) (r : BPReading) (eff : Effects) (now : String)
    (h1 : eff.patientGetOk = true) (h2 : eff.alertAddOk = true) :
    (createAlertForReading db r eff now).alerts
      = db.alerts ++ [mkAlertData db.patients r now] := by
  unfold createAlertForReading
  simp [h1, h2]

lemma POST_valid (db : Db) (body : CreateReadingRequest) (eff : Effects)
    (now newId : String) (hv : validBody body = true)
    (hadd : eff.readingAddOk = true) :
    POST db body eff now newId =
      if (mkReading body now newId).status = .critical
          ∨ (mkReading body now newId).status = .high then
        (.created (mkReading body now newId),
         createAlertForReading
           { db with readings := db.readings ++ [mkReading body now newId] }
           (mkReading body now newId) eff now)
      else
        (.created (mkReading body now newId),
         { db with readings := db.readings ++ [mkReading body now newId] }) := by
  simp only [validBody, Bool.and_eq_true, decide_eq_true_eq] at hv
  obtain ⟨⟨⟨⟨⟨⟨h1, h2⟩, h3⟩, h4⟩, h5⟩, h6⟩, h7⟩ := hv
  unfold POST
  rw [if_neg (by simp [h1, h2, h3]), if_neg (by omega), if_neg (by omega),
    if_neg (by simp [hadd])]

lemma POST_noAdd (db : Db) (body : CreateReadingRequest) (eff : Effects)
    (now newId : String) (hv : validBody body = true)
    (hadd : eff.readingAddOk = false) :
    POST db body eff now newId = (.serverError, db) := by
  simp only [validBody, Bool.and_eq_true, decide_eq_true_eq] at hv
  obtain ⟨⟨⟨⟨⟨⟨h1, h2⟩, h3⟩, h4⟩, h5⟩, h6⟩, h7⟩ := hv
  unfold POST
  rw [if_neg (by simp [h1, h2, h3]), if_neg (by omega), if_neg (by omega),
    if_pos hadd]

end Readings

namespace Alerts

/-- Alert document as stored in the alerts collection (interface Alert in the
shared types module). The status field is the raw string the store holds,
which lets the embedding talk about writes outside the declared enumeration. -/
structure Alert where
  id : String
  patientId : String
  patientName : String
  type : String
  severity : String
  status : String
  title : String
  description : String
  relatedReadingId : Option String
  triggerValue : Option String
  createdAt : String
  acknowledgedAt : Option String
  resolvedAt : Option String
  resolvedBy : Option String
  resolution : Option String
deriving DecidableEq

/-- Request body of PATCH /api/alerts: alertId and status destructured from the
JSON body (missing becomes the empty string for the falsy check), plus the
optional resolution text. -/
structure PatchRequest where
  alertId : String
  status : String
  resolution : Option String
deriving DecidableEq

/-- Result of PATCH /api/alerts: 200 success true, 400 for a falsy alertId or
status, 500 when the store update throws (in particular on a missing document),
503 when the store is not configured. -/
inductive PatchResult where
  | ok
  | badRequest
  | serverError
  | notConfigured
deriving DecidableEq

/-- Field merge the PATCH handler sends to the store: status is always written
verbatim; acknowledgedAt is stamped when the supplied status is acknowledged;
resolvedAt, the hard-coded resolvedBy and (when truthy) resolution are written
when the supplied status is resolved; every other field is left as is, since
the store update merges only the supplied keys. -/
def applyPatchUpdate (a : Alert) (req : PatchRequest) (now : String) : Alert :=
  if req.status = "acknowledged" then
    { a with status := req.status, acknowledgedAt := some now }
  else if req.status = "resolved" then
    { a with
      status := req.status
      resolvedAt := some now
      resolvedBy := some "clinician-001"
      resolution := if truthyStr req.resolution then req.resolution else a.resolution }
  else
    { a with status := req.status }

/-- Embedding of PATCH /api/alerts. The handler never reads the current alert
document: it sends the update blindly. A store update on a missing document
rejects, which the catch-all turns into the generic 500; on an existing
document the merge applies and 200 is returned. -/
def PATCH (configured : Bool) (db : List Alert) (req : PatchRequest)
    (now : String) : PatchResult × List Alert :=
  if configured = false then (.notConfigured, db)
  else if req.alertId = "" ∨ req.status = "" then (.badRequest, db)
  else if ∃ a ∈ db, a.id = req.alertId then
    (.ok, db.map fun a => if a.id = req.alertId then applyPatchUpdate a req now else a)
  else (.serverError, db)

end Alerts

/-- C1: for every pair of integers the classifier returns critical exactly when
systolic is at least 180 or diastolic at least 120, high exactly when no
critical band matches and systolic is at least 140 or diastolic at least 90,
elevated exactly when no higher band matches and systolic is at least 130 or
diastolic at least 80, and normal otherwise; bands are evaluated top-down so
the worse tier wins. The listed boundary pairs map as the spec states. -/
theorem c1_classifier_bands :
    (∀ s d : Int,
      (Readings.getReadingStatus s d = .critical ↔ s ≥ 180 ∨ d ≥ 120) ∧
      (Readings.getReadingStatus s d = .high ↔
        ¬(s ≥ 180 ∨ d ≥ 120) ∧ (s ≥ 140 ∨ d ≥ 90)) ∧
      (Readings.getReadingStatus s d = .elevated ↔
        ¬(s ≥ 180 ∨ d ≥ 120) ∧ ¬(s ≥ 140 ∨ d ≥ 90) ∧ (s ≥ 130 ∨ d ≥ 80)) ∧
      (Readings.getReadingStatus s d = .normal ↔
        ¬(s ≥ 180 ∨ d ≥ 120) ∧ ¬(s ≥ 140 ∨ d ≥ 90) ∧ ¬(s ≥ 130 ∨ d ≥ 80))) ∧
    Readings.getReadingStatus 180 0 = .critical ∧
    Readings.getReadingStatus 179 119 = .high ∧
    Readings.getReadingStatus 140 89 = .high ∧
    Readings.getReadingStatus 139 79 = .elevated ∧
    Readings.getReadingStatus 130 80 = .elevated ∧
    Readings.getReadingStatus 129 79 = .normal := by
  refine ⟨fun s d => ?_, by decide, by decide, by decide, by decide, by decide, by decide⟩
  unfold Readings.getReadingStatus
  split_ifs with h1 h2 h3 <;> simp_all

/-- C9: the three copies of the severity classifier, getReadingStatus in the
readings route, getReadingStatus in the blood-pressure route and
calculateReadingStatus in the shared types module, agree on every pair of
integers. -/
theorem c9_classifiers_extensionally_equal :
    ∀ s d : Int,
      Readings.getReadingStatus s d = BloodPressure.getReadingStatus s d ∧
      Readings.getReadingStatus s d = ApiTypes.calculateReadingStatus s d :=
  fun _ _ => ⟨rfl, rfl⟩

/-- Concrete valid submission used by the witnesses: patient P-2025-001 with a
critical 185/110 reading. -/
def sampleBody : Readings.CreateReadingRequest :=
  ⟨some "P-2025-001", some 185, some 110, some 72, some "patient-app", none, none⟩

/-- C2: for every valid reading submission, at most one alert is ever appended
per invocation, a reading classified elevated or normal never creates an
alert whatever the store does, and when the store operations succeed an alert
is created exactly when the computed tier is critical or high. -/
theorem c2_alert_iff_critical_or_high (db : Readings.Db)
    (body : Readings.CreateReadingRequest) (now newId : String)
    (hv : Readings.validBody body = true) :
    (∀ eff : Readings.Effects,
      (Readings.POST db body eff now newId).2.alerts = db.alerts ∨
      (Readings.POST db body eff now newId).2.alerts
        = db.alerts ++ [Readings.mkAlertData db.patients
            (Readings.mkReading body now newId) now]) ∧
    (∀ eff : Readings.Effects,
      (Readings.getReadingStatus (body.systolic.getD 0) (body.diastolic.getD 0)
          = .elevated ∨
       Readings.getReadingStatus (body.systolic.getD 0) (body.diastolic.getD 0)
          = .normal) →
      (Readings.POST db body eff now newId).2.alerts = db.alerts) ∧
    (∀ eff : Readings.Effects, eff.readingAddOk = true →
      eff.patientGetOk = true → eff.alertAddOk = true →
      ((Readings.getReadingStatus (body.systolic.getD 0) (body.diastolic.getD 0)
          = .critical ∨
        Readings.getReadingStatus (body.systolic.getD 0) (body.diastolic.getD 0)
          = .high) ↔
       (Readings.POST db body eff now newId).2.alerts
         = db.alerts ++ [Readings.mkAlertData db.patients
             (Readings.mkReading body now newId) now])) := by
  have hstat : ∀ now newId,
      (Readings.mkReading body now newId).status
        = Readings.getReadingStatus (body.systolic.getD 0) (body.diastolic.getD 0) :=
    fun _ _ => rfl
  refine ⟨fun eff => ?_, fun eff htier => ?_, fun eff hadd hget halert => ?_⟩
  · by_cases hadd : eff.readingAddOk = true
    · rw [Readings.POST_valid db body eff now newId hv hadd]
      split_ifs with h
      · have := Readings.createAlert_alerts_cases
          { db with readings := db.readings ++ [Readings.mkReading body now newId] }
          (Readings.mkReading body now newId) eff now
        simpa using this
      · exact Or.inl rfl
    · rw [Readings.POST_noAdd db body eff now newId hv (by simpa using hadd)]
      exact Or.inl rfl
  · by_cases hadd : eff.readingAddOk = true
    · rw [Readings.POST_valid db body eff now newId hv hadd]
      rw [if_neg]
      rw [hstat]
      rcases htier with h | h <;> simp [h]
    · rw [Readings.POST_noAdd db body eff now newId hv (by simpa using hadd)]
  · rw [Readings.POST_valid db body eff now newId hv hadd]
    constructor
    · intro htier
      rw [if_pos (by rw [hstat]; exact htier)]
      exact Readings.createAlert_alerts_ok _ _ _ _ hget halert
    · intro heq
      by_contra htier
      rw [if_neg (by rw [hstat]; exact htier)] at heq
      have hlen := congrArg List.length heq
      simp at hlen

/-- Witness for C2 at the concrete critical submission: one alert is appended
to an empty store. -/
theorem c2_witness :
    (Readings.POST ⟨[], [], []⟩ sampleBody ⟨true, true, true⟩ "T0" "r-1").2.alerts
      = [] ++ [Readings.mkAlertData []
          (Readings.mkReading sampleBody "T0" "r-1") "T0"] :=
  ((c2_alert_iff_critical_or_high ⟨[], [], []⟩ sampleBody "T0" "r-1"
    (by decide)).2.2 ⟨true, true, true⟩ rfl rfl rfl).mp (Or.inl (by decide))

/-- C6: for every valid reading submission whose reading write succeeds, the
handler returns 201 with the persisted reading and that reading stays appended
to the readings collection, for every behaviour of the patient lookup and the
alert add — an alert-pipeline failure is swallowed inside
createAlertForReading and never rolls the reading back or changes the
response. -/
theorem c6_alert_failure_swallowed (db : Readings.Db)
    (body : Readings.CreateReadingRequest) (eff : Readings.Effects)
    (now newId : String) (hv : Readings.validBody body = true)
    (hadd : eff.readingAddOk = true) :
    ∃ r, (Readings.POST db body eff now newId).1 = .created r ∧
      (Readings.POST db body eff now newId).2.readings = db.readings ++ [r] := by
  refine ⟨Readings.mkReading body now newId, ?_, ?_⟩ <;>
    rw [Readings.POST_valid db body eff now newId hv hadd] <;>
    split_ifs <;>
    simp [Readings.createAlert_readings]

/-- Witness for C6: the alert add fails, yet the POST still returns the created
reading and the reading is persisted. -/
theorem c6_witness :
    ∃ r, (Readings.POST ⟨[], [], []⟩ sampleBody ⟨true, true, false⟩ "T0" "r-1").1
        = .created r ∧
      (Readings.POST ⟨[], [], []⟩ sampleBody ⟨true, true, false⟩ "T0" "r-1").2.readings
        = [] ++ [r] :=
  c6_alert_failure_swallowed ⟨[], [], []⟩ sampleBody ⟨true, true, false⟩ "T0" "r-1"
    (by decide) rfl

/-- C7: a submission with a missing patientId, a systolic value outside 60-300
or a diastolic value outside 40-200 is rejected with a 400 validation error
and leaves the store untouched, so nothing is classified, persisted or
alerted; and the boundary values 60, 300, 40 and 200 pass validation and are
persisted. -/
theorem c7_validation_bounds :
    (∀ (db : Readings.Db) (body : Readings.CreateReadingRequest)
        (eff : Readings.Effects) (now newId : String),
      (body.patientId = none
        ∨ (∃ s, body.systolic = some s ∧ (s < 60 ∨ s > 300))
        ∨ (∃ d, body.diastolic = some d ∧ (d < 40 ∨ d > 200))) →
      ∃ msg, Readings.POST db body eff now newId = (.badRequest msg, db)) ∧
    (∀ (db : Readings.Db) (eff : Readings.Effects) (now newId pid : String)
        (sys dia : Int) (pulse : Option Int) (src devId note : Option String),
      pid ≠ "" → (sys = 60 ∨ sys = 300) → (dia = 40 ∨ dia = 200) →
      eff.readingAddOk = true →
      ∃ r, (Readings.POST db ⟨some pid, some sys, some dia, pulse, src, devId, note⟩
          eff now newId).1 = .created r) := by
  constructor
  · intro db body eff now newId h
    by_cases h1 : truthyStr body.patientId = false ∨ truthyInt body.systolic = false
        ∨ truthyInt body.diastolic = false
    · exact ⟨_, by rw [Readings.POST, if_pos h1]⟩
    · rcases h with hpid | ⟨s, hs, hr⟩ | ⟨d, hd, hr⟩
      · exact absurd (Or.inl (by simp [truthyStr, hpid])) h1
      · refine ⟨"Invalid systolic value", ?_⟩
        rw [Readings.POST, if_neg h1, if_pos (by simp [hs]; omega)]
      · by_cases h2 : body.systolic.getD 0 < 60 ∨ body.systolic.getD 0 > 300
        · exact ⟨_, by rw [Readings.POST, if_neg h1, if_pos h2]⟩
        · refine ⟨"Invalid diastolic value", ?_⟩
          rw [Readings.POST, if_neg h1, if_neg h2, if_pos (by simp [hd]; omega)]
  · intro db eff now newId pid sys dia pulse src devId note hpid hsys hdia hadd
    have hv : Readings.validBody ⟨some pid, some sys, some dia, pulse, src, devId, note⟩
        = true := by
      simp [Readings.validBody, truthyStr, truthyInt, hpid]
      rcases hsys with h | h <;> rcases hdia with h' | h' <;> subst h <;> subst h' <;>
        refine ⟨by decide, by decide⟩
    rw [Readings.POST_valid db _ eff now newId hv hadd]
    split_ifs <;> exact ⟨_, rfl⟩

/-- Witness for C7: a systolic of 301 is rejected with a 400 and the store is
unchanged. -/
theorem c7_witness :
    ∃ msg, Readings.POST ⟨[], [], []⟩
        ⟨some "P-2025-001", some 301, some 80, none, none, none, none⟩
        ⟨true, true, true⟩ "T0" "r-9"
      = (.badRequest msg, ⟨[], [], []⟩) :=
  c7_validation_bounds.1 ⟨[], [], []⟩ _ ⟨true, true, true⟩ "T0" "r-9"
    (Or.inr (Or.inl ⟨301, rfl, by decide⟩))

/-- Concrete critical reading 185/110 used by the C5 refutation. -/
def sampleReadingA : Readings.BPReading :=
  ⟨"r-1", "P-X", 185, 110, none, "T0", "patient-app", none, .critical, none⟩

/-- Concrete critical reading 192/118 used by the C5 refutation. -/
def sampleReadingB : Readings.BPReading :=
  ⟨"r-2", "P-X", 192, 118, none, "T0", "patient-app", none, .critical, none⟩

/-- Counterexample to C5: two critical readings with different systolic and
diastolic values produce alerts with the very same title, the fixed string
Critical Blood Pressure Alert, so the title does not embed the
systolic/diastolic values as the claim states. -/
theorem c5_counterexample :
    sampleReadingA.status = .critical ∧ sampleReadingB.status = .critical ∧
    sampleReadingA.systolic ≠ sampleReadingB.systolic ∧
    sampleReadingA.diastolic ≠ sampleReadingB.diastolic ∧
    (Readings.mkAlertData [] sampleReadingA "T0").title
      = (Readings.mkAlertData [] sampleReadingB "T0").title ∧
    (Readings.mkAlertData [] sampleReadingA "T0").title
      = "Critical Blood Pressure Alert" := by
  refine ⟨rfl, rfl, by decide, by decide, rfl, rfl⟩

/-- C5 as amended: for every reading of critical or high tier the built alert
resolves patientName through the lookup chain with the literal Unknown Patient
fallback, its type, severity and title are the per-tier constants (the title is
a fixed string that does not embed the vitals), status starts as new, the
description embeds the systolic/diastolic values, triggerValue is exactly the
systolic/diastolic string and relatedReadingId is the source reading id. -/
theorem c5_amended_alert_construction (patients : List Readings.PatientRec)
    (reading : Readings.BPReading) (now : String)
    (h : reading.status = .critical ∨ reading.status = .high) :
    (Readings.mkAlertData patients reading now).patientName
      = Readings.resolvePatientName patients reading.patientId ∧
    (patients.find? (fun p => p.id == reading.patientId) = none →
      Readings.demoPatientMap reading.patientId = none →
      (Readings.mkAlertData patients reading now).patientName = "Unknown Patient") ∧
    (reading.status = .critical →
      (Readings.mkAlertData patients reading now).type = "critical-bp" ∧
      (Readings.mkAlertData patients reading now).severity = "critical" ∧
      (Readings.mkAlertData patients reading now).title
        = "Critical Blood Pressure Alert") ∧
    (reading.status = .high →
      (Readings.mkAlertData patients reading now).type = "high-bp" ∧
      (Readings.mkAlertData patients reading now).severity = "warning" ∧
      (Readings.mkAlertData patients reading now).title
        = "High Blood Pressure Alert") ∧
    (Readings.mkAlertData patients reading now).status = "new" ∧
    (Readings.mkAlertData patients reading now).description
      = "Blood pressure reading of " ++ toString reading.systolic ++ "/"
        ++ toString reading.diastolic ++ " mmHg requires attention." ∧
    (Readings.mkAlertData patients reading now).triggerValue
      = toString reading.systolic ++ "/" ++ toString reading.diastolic ∧
    (Readings.mkAlertData patients reading now).relatedReadingId = reading.id ∧
    (Readings.mkAlertData patients reading now).createdAt = now := by
  refine ⟨rfl, ?_, ?_, ?_, rfl, rfl, rfl, rfl, rfl⟩
  · intro hf hd
    simp [Readings.mkAlertData, Readings.resolvePatientName, hf, hd]
  · intro hc
    exact ⟨by simp [Readings.mkAlertData, hc], by simp [Readings.mkAlertData, hc],
      by simp [Readings.mkAlertData, hc]⟩
  · intro hh
    have hne : ¬ reading.status = .critical := by rw [hh]; decide
    exact ⟨by simp [Readings.mkAlertData, hne], by simp [Readings.mkAlertData, hne],
      by simp [Readings.mkAlertData, hne]⟩

/-- Witness for the amended C5 at the concrete critical reading. -/
theorem c5_amended_witness :
    (Readings.mkAlertData [] sampleReadingA "T0").patientName
      = Readings.resolvePatientName [] sampleReadingA.patientId ∧
    (Readings.mkAlertData [] sampleReadingA "T0").triggerValue
      = toString sampleReadingA.systolic ++ "/" ++ toString sampleReadingA.diastolic :=
  ⟨(c5_amended_alert_construction [] sampleReadingA "T0" (Or.inl rfl)).1,
   (c5_amended_alert_construction [] sampleReadingA "T0"
     (Or.inl rfl)).2.2.2.2.2.2.1⟩

/-- Concrete already-resolved alert used by the alert state-machine claims. -/
def resolvedAlert : Alerts.Alert :=
  { id := "alert-1"
    patientId := "P-2025-001"
    patientName := "Maria Rodriguez"
    type := "critical-bp"
    severity := "critical"
    status := "resolved"
    title := "Critical Blood Pressure Alert"
    description := "Blood pressure reading of 185/110 mmHg requires attention."
    relatedReadingId := some "r-1"
    triggerValue := some "185/110"
    createdAt := "2025-01-01T00:00:00Z"
    acknowledgedAt := some "2025-01-01T01:00:00Z"
    resolvedAt := some "2025-01-01T02:00:00Z"
    resolvedBy := some "clinician-001"
    resolution := some "Issue addressed" }

/-- Concrete already-acknowledged alert used by the timestamp claims. -/
def acknowledgedAlert : Alerts.Alert :=
  { id := "alert-2"
    patientId := "P-2025-003"
    patientName := "James Wilson"
    type := "high-bp"
    severity := "warning"
    status := "acknowledged"
    title := "High Blood Pressure Alert"
    description := "Blood pressure reading of 165/95 mmHg requires attention."
    relatedReadingId := some "r-3"
    triggerValue := some "165/95"
    createdAt := "2025-01-01T00:00:00Z"
    acknowledgedAt := some "2025-01-01T01:00:00Z"
    resolvedAt := none
    resolvedBy := none
    resolution := none }

/-- Concrete fresh alert used by the C10 witness. -/
def newAlert : Alerts.Alert :=
  { id := "alert-3"
    patientId := "P-2025-002"
    patientName := "Robert Thompson"
    type := "critical-bp"
    severity := "critical"
    status := "new"
    title := "Critical Blood Pressure Alert"
    description := "Blood pressure reading of 192/118 mmHg requires attention."
    relatedReadingId := some "r-2"
    triggerValue := some "192/118"
    createdAt := "2025-01-01T00:00:00Z"
    acknowledgedAt := none
    resolvedAt := none
    resolvedBy := none
    resolution := none }

/-- Counterexample to C3: a PATCH that sends status new to an already resolved
alert is accepted and moves the status backward to new, so the transitions are
not monotonic and a resolved alert can still be mutated. -/
theorem c3_counterexample :
    resolvedAlert.status = "resolved" ∧
    (Alerts.PATCH true [resolvedAlert] ⟨"alert-1", "new", none⟩
      "2025-01-02T00:00:00Z").1 = .ok ∧
    ((Alerts.PATCH true [resolvedAlert] ⟨"alert-1", "new", none⟩
      "2025-01-02T00:00:00Z").2.map Alerts.Alert.status) = ["new"] := by
  decide

/-- C3 as amended: the handler enforces no transition order at all — every
accepted update writes the supplied status verbatim, whatever the current
status, so a transition can move backward and a resolved alert remains fully
mutable; acceptance depends only on the store being configured, the request
fields being truthy and the alert existing. -/
theorem c3_amended_no_gating :
    (∀ (a : Alerts.Alert) (req : Alerts.PatchRequest) (now : String),
      (Alerts.applyPatchUpdate a req now).status = req.status) ∧
    (∀ (db : List Alerts.Alert) (req : Alerts.PatchRequest) (now : String),
      req.alertId ≠ "" → req.status ≠ "" → (∃ a ∈ db, a.id = req.alertId) →
      (Alerts.PATCH true db req now).1 = .ok) := by
  constructor
  · intro a req now
    unfold Alerts.applyPatchUpdate
    split_ifs <;> rfl
  · intro db req now h1 h2 hex
    unfold Alerts.PATCH
    rw [if_neg (by simp), if_neg (by simp [h1, h2]), if_pos hex]

/-- Witness for the amended C3: the resolved alert is re-acknowledged and the
handler accepts. -/
theorem c3_amended_witness :
    (Alerts.PATCH true [resolvedAlert] ⟨"alert-1", "acknowledged", none⟩
      "2025-01-02T00:00:00Z").1 = .ok :=
  c3_amended_no_gating.2 [resolvedAlert] ⟨"alert-1", "acknowledged", none⟩
    "2025-01-02T00:00:00Z" (by decide) (by decide)
    ⟨resolvedAlert, by simp, rfl⟩

/-- Counterexample to C4: a PATCH targeting the already resolved alert does not
fail at all — it returns success, so no invalid-transition error reaches the
caller. -/
theorem c4_counterexample :
    resolvedAlert.status = "resolved" ∧
    (Alerts.PATCH true [resolvedAlert] ⟨"alert-1", "acknowledged", none⟩
      "2025-01-02T00:00:00Z").1 = .ok := by
  decide

/-- C4 as amended: a PATCH naming a non-existent alert id fails, but only with
the generic 500 Failed-to-update error produced by the catch-all, the same
response as any other store failure, so the caller cannot distinguish it as
not-found; and a PATCH on an already resolved alert does not fail — it returns
success and applies the update. -/
theorem c4_amended_error_reporting :
    (∀ (db : List Alerts.Alert) (req : Alerts.PatchRequest) (now : String),
      req.alertId ≠ "" → req.status ≠ "" → (¬ ∃ a ∈ db, a.id = req.alertId) →
      Alerts.PATCH true db req now = (.serverError, db)) ∧
    (∀ (db : List Alerts.Alert) (req : Alerts.PatchRequest) (now : String)
        (a : Alerts.Alert),
      req.alertId ≠ "" → req.status ≠ "" → a ∈ db → a.id = req.alertId →
      a.status = "resolved" →
      (Alerts.PATCH true db req now).1 = .ok) := by
  constructor
  · intro db req now h1 h2 hex
    unfold Alerts.PATCH
    rw [if_neg (by simp), if_neg (by simp [h1, h2]), if_neg hex]
  · intro db req now a h1 h2 ha hid _hres
    unfold Alerts.PATCH
    rw [if_neg (by simp), if_neg (by simp [h1, h2]), if_pos ⟨a, ha, hid⟩]

/-- Witness for the amended C4: a PATCH against an empty store returns the
generic server error, and one against the resolved alert returns success. -/
theorem c4_amended_witness :
    Alerts.PATCH true [] ⟨"missing-id", "acknowledged", none⟩ "T2"
      = (.serverError, []) ∧
    (Alerts.PATCH true [resolvedAlert] ⟨"alert-1", "resolved", some "again"⟩
      "T2").1 = .ok :=
  ⟨c4_amended_error_reporting.1 [] ⟨"missing-id", "acknowledged", none⟩ "T2"
     (by decide) (by decide) (by simp),
   c4_amended_error_reporting.2 [resolvedAlert]
     ⟨"alert-1", "resolved", some "again"⟩ "T2" resolvedAlert
     (by decide) (by decide) (by simp) rfl rfl⟩

/-- Counterexample to C8: the acknowledged alert carries an acknowledgedAt
timestamp, yet a second accepted acknowledge re-stamps the field with the new
current time, changing its value. -/
theorem c8_counterexample :
    acknowledgedAlert.acknowledgedAt = some "2025-01-01T01:00:00Z" ∧
    (Alerts.PATCH true [acknowledgedAlert] ⟨"alert-2", "acknowledged", none⟩
      "2025-01-03T00:00:00Z").1 = .ok ∧
    ((Alerts.PATCH true [acknowledgedAlert] ⟨"alert-2", "acknowledged", none⟩
      "2025-01-03T00:00:00Z").2.map Alerts.Alert.acknowledgedAt)
      = [some "2025-01-03T00:00:00Z"] := by
  decide

/-- C8 as amended: acknowledgedAt and resolvedAt are never cleared once set,
and an update whose supplied status is not the corresponding value leaves them
untouched; but a repeated acknowledge re-stamps acknowledgedAt and a repeated
resolve re-stamps resolvedAt with the current time, so a set timestamp can
still change value. -/
theorem c8_amended_timestamps (a : Alerts.Alert) (req : Alerts.PatchRequest)
    (now : String) :
    ((Alerts.applyPatchUpdate a req now).acknowledgedAt = none →
      a.acknowledgedAt = none) ∧
    ((Alerts.applyPatchUpdate a req now).resolvedAt = none →
      a.resolvedAt = none) ∧
    (req.status ≠ "acknowledged" →
      (Alerts.applyPatchUpdate a req now).acknowledgedAt = a.acknowledgedAt) ∧
    (req.status ≠ "resolved" →
      (Alerts.applyPatchUpdate a req now).resolvedAt = a.resolvedAt) ∧
    (req.status = "acknowledged" →
      (Alerts.applyPatchUpdate a req now).acknowledgedAt = some now) ∧
    (req.status = "resolved" →
      (Alerts.applyPatchUpdate a req now).resolvedAt = some now) := by
  unfold Alerts.applyPatchUpdate
  split_ifs with h1 h2 <;> simp_all

/-- Witness for the amended C8: a resolve on the acknowledged alert leaves the
set acknowledgedAt unchanged. -/
theorem c8_amended_witness :
    (Alerts.applyPatchUpdate acknowledgedAlert ⟨"alert-2", "resolved", none⟩
      "2025-01-04T00:00:00Z").acknowledgedAt = acknowledgedAlert.acknowledgedAt :=
  (c8_amended_timestamps acknowledgedAlert ⟨"alert-2", "resolved", none⟩
    "2025-01-04T00:00:00Z").2.2.1 (by decide)

/-- C10: for every PATCH with truthy alertId and status against an existing
alert, the handler returns success and writes the supplied status string
verbatim — whatever the current status of the alert, including the value new
and strings outside the declared enumeration — stamping acknowledgedAt exactly
when the supplied status is acknowledged, and resolvedAt, the hard-coded
resolvedBy and (when the resolution text is truthy) resolution exactly when it
is resolved, while every other stored field and every other alert stays
unchanged. -/
theorem c10_patch_writes_verbatim (db : List Alerts.Alert)
    (req : Alerts.PatchRequest) (now : String)
    (h1 : req.alertId ≠ "") (h2 : req.status ≠ "")
    (hex : ∃ a ∈ db, a.id = req.alertId) :
    (Alerts.PATCH true db req now).1 = .ok ∧
    (∀ a ∈ db, a.id ≠ req.alertId → a ∈ (Alerts.PATCH true db req now).2) ∧
    (∀ a ∈ db, a.id = req.alertId →
      ∃ a' ∈ (Alerts.PATCH true db req now).2,
        a'.status = req.status ∧
        a'.acknowledgedAt
          = (if req.status = "acknowledged" then some now else a.acknowledgedAt) ∧
        a'.resolvedAt
          = (if req.status = "resolved" then some now else a.resolvedAt) ∧
        a'.resolvedBy
          = (if req.status = "resolved" then some "clinician-001"
             else a.resolvedBy) ∧
        a'.resolution
          = (if req.status = "resolved" ∧ truthyStr req.resolution = true
             then req.resolution else a.resolution) ∧
        a'.id = a.id ∧ a'.patientId = a.patientId ∧
        a'.patientName = a.patientName ∧ a'.type = a.type ∧
        a'.severity = a.severity ∧ a'.title = a.title ∧
        a'.description = a.description ∧
        a'.relatedReadingId = a.relatedReadingId ∧
        a'.triggerValue = a.triggerValue ∧ a'.createdAt = a.createdAt) := by
  have hpatch : Alerts.PATCH true db req now
      = (.ok, db.map fun a =>
          if a.id = req.alertId then Alerts.applyPatchUpdate a req now else a) := by
    unfold Alerts.PATCH
    rw [if_neg (by simp), if_neg (by simp [h1, h2]), if_pos hex]
  refine ⟨by rw [hpatch], ?_, ?_⟩
  · intro a ha hne
    rw [hpatch]
    exact List.mem_map.mpr ⟨a, ha, by rw [if_neg hne]⟩
  · intro a ha hid
    refine ⟨Alerts.applyPatchUpdate a req now,
      by rw [hpatch]; exact List.mem_map.mpr ⟨a, ha, by rw [if_pos hid]⟩, ?_⟩
    unfold Alerts.applyPatchUpdate
    split_ifs with hack hres <;> simp_all

/-- Witness for C10: a status outside the enumeration is written verbatim to
the fresh alert and the handler reports success. -/
theorem c10_witness :
    (Alerts.PATCH true [newAlert] ⟨"alert-3", "totally-bogus", some "note"⟩
      "T5").1 = .ok :=
  (c10_patch_writes_verbatim [newAlert] ⟨"alert-3", "totally-bogus", some "note"⟩
    "T5" (by decide) (by decide) ⟨newAlert, by simp, rfl⟩).1
